import Mathlib

/-!
# ThoughtEcho: the Windows runner entry point

A shallow embedding of `wWinMain` (`windows/runner/main.cpp`).  The function
consists only of calls into the operating system, the Flutter embedding and
the runner's own window classes, so the embedding is a function from an
environment (the results those calls give back) to the sequence of calls
that `wWinMain` makes, together with its exit code.

The message loop `while (::GetMessage(...))` need not terminate; it is
embedded with a fuel argument that bounds the number of times the loop
condition is evaluated.  A run that uses up its fuel has no exit code.
-/

namespace ThoughtEcho

/-! ## Data passed to and from the external calls -/

/-- Window handle `HWND`; the null handle is `0`. -/
abbrev HWND := Nat

/-- The Win32 message record `::MSG` that `GetMessage` fills in. -/
structure MSG where
  hwnd : HWND
  message : Nat
  wParam : Nat
  lParam : Int
  time : Nat
  pt : Int × Int
deriving DecidableEq, Repr

/-- The record `Win32Window::Point`, as built by `origin(10, 10)`. -/
structure Point where
  x : Nat
  y : Nat
deriving DecidableEq, Repr

/-- The record `Win32Window::Size`, as built by `size(1280, 720)`. -/
structure Size where
  width : Nat
  height : Nat
deriving DecidableEq, Repr

/-- Windows constant `ATTACH_PARENT_PROCESS`, that is `(DWORD)-1`. -/
def ATTACH_PARENT_PROCESS : Nat := 4294967295

/-- Windows constant `COINIT_APARTMENTTHREADED`. -/
def COINIT_APARTMENTTHREADED : Nat := 2

/-- Windows constant `MB_OK`. -/
def MB_OK : Nat := 0

/-- Windows constant `MB_ICONERROR`. -/
def MB_ICONERROR : Nat := 16

/-- C constant `EXIT_SUCCESS`. -/
def EXIT_SUCCESS : Int := 0

/-- C constant `EXIT_FAILURE`. -/
def EXIT_FAILURE : Int := 1

/-- The null pointer, as a handle or as a reserved argument. -/
def nullptr : Nat := 0

/-- One call made by `wWinMain`, with the arguments it passes.  Pointer
arguments to the local buffer `msg` are recorded by the content of the buffer
at the time of the call.  The last three constructors are the destructors of
the automatic objects of class type declared in the body, `window`,
`command_line_arguments` and `project`, which run when the function
returns. -/
inductive Call where
  | AttachConsole (processId : Nat)
  | IsDebuggerPresent
  | CreateAndAttachConsole
  | CoInitializeEx (reserved : Nat) (coInit : Nat)
  | DartProject_ctor (path : String)
  | GetCommandLineArguments
  | set_dart_entrypoint_arguments (arguments : List String)
  | FlutterWindow_ctor
  | Create (title : String) (origin : Point) (size : Size)
  | MessageBoxW (owner : HWND) (text : String) (caption : String) (flags : Nat)
  | SetQuitOnClose (quit_on_close : Bool)
  | GetHandle
  | SetForegroundWindow (hwnd : HWND)
  | BringWindowToTop (hwnd : HWND)
  | GetMessage (hwnd : HWND) (filterMin : Nat) (filterMax : Nat)
  | TranslateMessage (msg : MSG)
  | DispatchMessage (msg : MSG)
  | CoUninitialize
  | FlutterWindow_dtor
  | vector_dtor
  | DartProject_dtor
deriving DecidableEq, Repr

/-- The environment of one run: what each external call gives back.  `BOOL`
and `HRESULT` results are integers.  `GetMessage k` is the result of call
number `k` (counted from 0) of `::GetMessage` together with the content that
the call leaves in the buffer `msg`.  Results that `wWinMain` discards are
listed as well, so that a statement over every environment also ranges over
them. -/
structure Env where
  AttachConsole : Int
  IsDebuggerPresent : Int
  CoInitializeEx : Int
  GetCommandLineArguments : List String
  Create : Bool
  MessageBoxW : Int
  GetHandle : HWND
  SetForegroundWindow : Int
  BringWindowToTop : Int
  GetMessage : Nat → Int × MSG
  TranslateMessage : Nat → Int
  DispatchMessage : Nat → Int

/-- The outcome of running `wWinMain` with some fuel: the calls made so far,
in order, and the exit code if the function has returned. -/
structure Run where
  trace : List Call
  exit : Option Int

/-! ## The embedding of `wWinMain` -/

/-- Lines 12-14: `if (!::AttachConsole(ATTACH_PARENT_PROCESS) &&
::IsDebuggerPresent()) { CreateAndAttachConsole(); }`.  The operator `&&`
evaluates its right operand only when the left one is true. -/
def consoleSetup (env : Env) : List Call :=
  if env.AttachConsole = 0 then
    if env.IsDebuggerPresent ≠ 0 then
      [Call.AttachConsole ATTACH_PARENT_PROCESS, Call.IsDebuggerPresent,
        Call.CreateAndAttachConsole]
    else
      [Call.AttachConsole ATTACH_PARENT_PROCESS, Call.IsDebuggerPresent]
  else
    [Call.AttachConsole ATTACH_PARENT_PROCESS]

/-- Lines 18-27: COM initialisation, construction of `project`, forwarding of
the command-line arguments, construction of `window`. -/
def projectSetup (env : Env) : List Call :=
  let command_line_arguments := env.GetCommandLineArguments
  [Call.CoInitializeEx nullptr COINIT_APARTMENTTHREADED,
   Call.DartProject_ctor "data",
   Call.GetCommandLineArguments,
   Call.set_dart_entrypoint_arguments command_line_arguments,
   Call.FlutterWindow_ctor]

/-- Lines 32-36: the message box shown when the window cannot be created. -/
def errorBox : Call :=
  Call.MessageBoxW nullptr
    ("无法创建应用窗口。请检查系统要求并重试。\n\n" ++
      "如果问题持续存在，请查看桌面上的调试日志文件。")
    "ThoughtEcho 启动错误"
    (MB_OK ||| MB_ICONERROR)

/-- Lines 39-46: `SetQuitOnClose(true)`, then the window is brought to the
foreground when `GetHandle` gives a non-null handle. -/
def showWindow (env : Env) : List Call :=
  let hwnd := env.GetHandle
  if hwnd ≠ 0 then
    [Call.SetQuitOnClose true, Call.GetHandle,
      Call.SetForegroundWindow hwnd, Call.BringWindowToTop hwnd]
  else
    [Call.SetQuitOnClose true, Call.GetHandle]

/-- Lines 48-52: `while (::GetMessage(&msg, nullptr, 0, 0)) {
::TranslateMessage(&msg); ::DispatchMessage(&msg); }`.  The first argument is
the number of `GetMessage` calls made so far, the second is the fuel; the
result is the calls made and whether the loop has ended. -/
def messageLoop (env : Env) : Nat → Nat → List Call × Bool
  | _, 0 => ([], false)
  | k, fuel + 1 =>
    let r := (env.GetMessage k).1
    let msg := (env.GetMessage k).2
    if r ≠ 0 then
      let rest := messageLoop env (k + 1) fuel
      (Call.GetMessage nullptr 0 0 :: Call.TranslateMessage msg ::
        Call.DispatchMessage msg :: rest.1, rest.2)
    else
      ([Call.GetMessage nullptr 0 0], true)

/-- Destruction of the automatic objects when `wWinMain` returns, in reverse
order of declaration.  The objects of class type in scope at both `return`
statements are `project` (line 20), `command_line_arguments` (line 22, a
`std::vector<std::string>`, destroyed although it was moved from) and `window`
(line 27); `origin`, `size`, `hwnd` and `msg` are plain records and handles,
whose destruction is no call. -/
def scopeExit : List Call :=
  [Call.FlutterWindow_dtor, Call.vector_dtor, Call.DartProject_dtor]

/-- The function `wWinMain` of `windows/runner/main.cpp`. -/
def wWinMain (env : Env) (fuel : Nat) : Run :=
  let t := consoleSetup env ++ projectSetup env ++
    [Call.Create "thoughtecho" ⟨10, 10⟩ ⟨1280, 720⟩]
  if !env.Create then
    { trace := t ++ [errorBox] ++ scopeExit, exit := some EXIT_FAILURE }
  else
    let t := t ++ showWindow env
    let loop := messageLoop env 0 fuel
    if loop.2 then
      { trace := t ++ loop.1 ++ [Call.CoUninitialize] ++ scopeExit,
        exit := some EXIT_SUCCESS }
    else
      { trace := t ++ loop.1, exit := none }

/-! ## Closed forms used to state the properties -/

/-- The calls of the first `n` iterations of the message loop, when each of
the first `n` `GetMessage` calls retrieves a message. -/
def pumped (env : Env) : Nat → List Call
  | 0 => []
  | n + 1 => pumped env n ++
      [Call.GetMessage nullptr 0 0, Call.TranslateMessage (env.GetMessage n).2,
        Call.DispatchMessage (env.GetMessage n).2]

/-- Calls of the message loop. -/
def Call.isLoopCall : Call → Bool
  | Call.GetMessage _ _ _ => true
  | Call.TranslateMessage _ => true
  | Call.DispatchMessage _ => true
  | _ => false

/-- Calls to `::GetMessage`. -/
def Call.isGetMessage : Call → Bool
  | Call.GetMessage _ _ _ => true
  | _ => false

/-- Calls to `MessageBoxW`. -/
def Call.isMessageBoxW : Call → Bool
  | Call.MessageBoxW _ _ _ _ => true
  | _ => false

/-- Calls that `wWinMain` makes only after `window.Create` has succeeded,
up to and including the message loop. -/
def Call.isWindowUse : Call → Bool
  | Call.SetQuitOnClose _ => true
  | Call.GetHandle => true
  | Call.SetForegroundWindow _ => true
  | Call.BringWindowToTop _ => true
  | Call.GetMessage _ _ _ => true
  | Call.TranslateMessage _ => true
  | Call.DispatchMessage _ => true
  | _ => false

/-- Calls to `set_dart_entrypoint_arguments`. -/
def Call.isSetArguments : Call → Bool
  | Call.set_dart_entrypoint_arguments _ => true
  | _ => false

/-- Calls to `window.Create`. -/
def Call.isCreate : Call → Bool
  | Call.Create _ _ _ => true
  | _ => false

/-- Calls of the console set-up. -/
def Call.isConsoleCall : Call → Bool
  | Call.AttachConsole _ => true
  | Call.IsDebuggerPresent => true
  | Call.CreateAndAttachConsole => true
  | _ => false

/-- Calls to `::CoInitializeEx`. -/
def Call.isCoInitializeEx : Call → Bool
  | Call.CoInitializeEx _ _ => true
  | _ => false

/-- The calls that COM initialisation has to precede: construction of the
`DartProject` and of the `FlutterWindow`, `window.Create`, and the calls of the
message loop. -/
def Call.isComClient : Call → Bool
  | Call.DartProject_ctor _ => true
  | Call.FlutterWindow_ctor => true
  | Call.Create _ _ _ => true
  | Call.GetMessage _ _ _ => true
  | Call.TranslateMessage _ => true
  | Call.DispatchMessage _ => true
  | _ => false

/-- Calls that show the window: `SetQuitOnClose`, `SetForegroundWindow` and
`BringWindowToTop`. -/
def Call.isShowCall : Call → Bool
  | Call.SetQuitOnClose _ => true
  | Call.SetForegroundWindow _ => true
  | Call.BringWindowToTop _ => true
  | _ => false

/-- Calls that `wWinMain` makes after `window.Create` has returned. -/
def Call.isAfterCreate : Call → Bool
  | Call.MessageBoxW _ _ _ _ => true
  | Call.SetQuitOnClose _ => true
  | Call.GetHandle => true
  | Call.SetForegroundWindow _ => true
  | Call.BringWindowToTop _ => true
  | Call.GetMessage _ _ _ => true
  | Call.TranslateMessage _ => true
  | Call.DispatchMessage _ => true
  | Call.CoUninitialize => true
  | Call.FlutterWindow_dtor => true
  | Call.vector_dtor => true
  | Call.DartProject_dtor => true
  | _ => false

/-- A message of the environment used in the examples. -/
def sampleMsg (n : Nat) : MSG :=
  { hwnd := 1, message := n, wParam := 0, lParam := 0, time := n, pt := (0, 0) }

/-- An environment in which the window is created, its handle is `7`, two
messages are retrieved (the second with result `-1`) and the third
`GetMessage` call returns 0. -/
def envQuit : Env :=
  { AttachConsole := 0, IsDebuggerPresent := 1, CoInitializeEx := 0,
    GetCommandLineArguments := ["--a", "b"], Create := true, MessageBoxW := 1,
    GetHandle := 7, SetForegroundWindow := 1, BringWindowToTop := 1,
    GetMessage := fun k => (if k = 0 then 1 else if k = 1 then -1 else 0, sampleMsg k),
    TranslateMessage := fun _ => 0, DispatchMessage := fun _ => 0 }

/-- An environment that differs from `envQuit` in every result except that of
`window.Create` and the position of the first 0 from `GetMessage`. -/
def envOther : Env :=
  { AttachConsole := 1, IsDebuggerPresent := 0, CoInitializeEx := -2147467259,
    GetCommandLineArguments := [], Create := true, MessageBoxW := 0,
    GetHandle := 0, SetForegroundWindow := 0, BringWindowToTop := 0,
    GetMessage := fun k => (if k < 2 then 5 else 0, sampleMsg (k + 40)),
    TranslateMessage := fun _ => 1, DispatchMessage := fun _ => 1 }

/-- An environment in which the window is created and every `GetMessage` call
returns the error result `-1`. -/
def envStuck : Env :=
  { envQuit with GetMessage := fun k => (-1, sampleMsg k) }

/-- An environment in which `window.Create` fails. -/
def envFail : Env :=
  { envQuit with AttachConsole := 1, Create := false }

/-! ## Lemmas on the message loop -/

theorem messageLoop_succ_ne (env : Env) (k fuel : Nat) (h : (env.GetMessage k).1 ≠ 0) :
    messageLoop env k (fuel + 1) =
      (Call.GetMessage nullptr 0 0 :: Call.TranslateMessage (env.GetMessage k).2 ::
        Call.DispatchMessage (env.GetMessage k).2 :: (messageLoop env (k + 1) fuel).1,
       (messageLoop env (k + 1) fuel).2) := by
  simp [messageLoop, h]

theorem messageLoop_succ_eq (env : Env) (k fuel : Nat) (h : (env.GetMessage k).1 = 0) :
    messageLoop env k (fuel + 1) = ([Call.GetMessage nullptr 0 0], true) := by
  simp [messageLoop, h]

theorem messageLoop_pumped (env : Env) (n : Nat) :
    (∀ k, k < n → (env.GetMessage k).1 ≠ 0) → ∀ f : Nat,
      messageLoop env 0 (n + f) =
        (pumped env n ++ (messageLoop env n f).1, (messageLoop env n f).2) := by
  induction n with
  | zero => intro _ f; simp [pumped]
  | succ n ih =>
    intro h f
    have h1 : ∀ k, k < n → (env.GetMessage k).1 ≠ 0 := fun k hk => h k (Nat.lt_succ_of_lt hk)
    have h2 : (env.GetMessage n).1 ≠ 0 := h n (Nat.lt_succ_self n)
    have e : n + 1 + f = n + (f + 1) := by omega
    rw [e, ih h1 (f + 1), messageLoop_succ_ne env n f h2]
    simp [pumped]

theorem messageLoop_first_zero (env : Env) (n fuel : Nat)
    (hnz : ∀ k, k < n → (env.GetMessage k).1 ≠ 0) (hz : (env.GetMessage n).1 = 0)
    (hf : n < fuel) :
    messageLoop env 0 fuel = (pumped env n ++ [Call.GetMessage nullptr 0 0], true) := by
  obtain ⟨f, rfl⟩ : ∃ f, fuel = n + (f + 1) := ⟨fuel - n - 1, by omega⟩
  rw [messageLoop_pumped env n hnz (f + 1), messageLoop_succ_eq env n f hz]

theorem messageLoop_running (env : Env) (fuel : Nat)
    (hnz : ∀ k, k < fuel → (env.GetMessage k).1 ≠ 0) :
    messageLoop env 0 fuel = (pumped env fuel, false) := by
  have h := messageLoop_pumped env fuel hnz 0
  simpa [messageLoop] using h

theorem messageLoop_done (env : Env) (fuel k : Nat) (h : (messageLoop env k fuel).2 = true) :
    ∃ j, j < fuel ∧ (env.GetMessage (k + j)).1 = 0 := by
  induction fuel generalizing k with
  | zero => simp [messageLoop] at h
  | succ f ih =>
    by_cases hz : (env.GetMessage k).1 = 0
    · exact ⟨0, Nat.succ_pos f, by simpa using hz⟩
    · rw [messageLoop_succ_ne env k f hz] at h
      obtain ⟨j, hj, hj0⟩ := ih (k + 1) h
      exact ⟨j + 1, Nat.succ_lt_succ hj, by rw [← hj0]; congr 2; omega⟩

theorem messageLoop_isLoopCall (env : Env) (fuel k : Nat) :
    ∀ c, c ∈ (messageLoop env k fuel).1 → c.isLoopCall = true := by
  induction fuel generalizing k with
  | zero => simp [messageLoop]
  | succ f ih =>
    intro c hc
    by_cases hz : (env.GetMessage k).1 = 0
    · rw [messageLoop_succ_eq env k f hz] at hc
      simp at hc
      subst hc
      rfl
    · rw [messageLoop_succ_ne env k f hz] at hc
      simp only [List.mem_cons] at hc
      rcases hc with rfl | rfl | rfl | hc
      · rfl
      · rfl
      · rfl
      · exact ih (k + 1) c hc

theorem messageLoop_congr (env env2 : Env)
    (hG : ∀ k, (env2.GetMessage k).1 = 0 ↔ (env.GetMessage k).1 = 0) (fuel k : Nat) :
    (messageLoop env2 k fuel).2 = (messageLoop env k fuel).2 := by
  induction fuel generalizing k with
  | zero => simp [messageLoop]
  | succ f ih =>
    by_cases hz : (env.GetMessage k).1 = 0
    · rw [messageLoop_succ_eq env k f hz, messageLoop_succ_eq env2 k f ((hG k).2 hz)]
    · have hz2 : (env2.GetMessage k).1 ≠ 0 := fun h => hz ((hG k).1 h)
      rw [messageLoop_succ_ne env k f hz, messageLoop_succ_ne env2 k f hz2]
      exact ih (k + 1)

theorem first_zero (env : Env) (h : ∃ k, (env.GetMessage k).1 = 0) :
    ∃ n, (∀ k, k < n → (env.GetMessage k).1 ≠ 0) ∧ (env.GetMessage n).1 = 0 := by
  classical
  exact ⟨Nat.find h, fun k hk => Nat.find_min h hk, Nat.find_spec h⟩

/-! ## The two shapes of a run -/

theorem wWinMain_create_false (env : Env) (fuel : Nat) (h : env.Create = false) :
    wWinMain env fuel =
      { trace := consoleSetup env ++ projectSetup env ++
          [Call.Create "thoughtecho" ⟨10, 10⟩ ⟨1280, 720⟩] ++ [errorBox] ++ scopeExit,
        exit := some EXIT_FAILURE } := by
  simp [wWinMain, h]

theorem wWinMain_done (env : Env) (fuel : Nat) (h : env.Create = true)
    (hl : (messageLoop env 0 fuel).2 = true) :
    wWinMain env fuel =
      { trace := consoleSetup env ++ projectSetup env ++
          [Call.Create "thoughtecho" ⟨10, 10⟩ ⟨1280, 720⟩] ++ showWindow env ++
          (messageLoop env 0 fuel).1 ++ [Call.CoUninitialize] ++ scopeExit,
        exit := some EXIT_SUCCESS } := by
  simp [wWinMain, h, hl]

theorem wWinMain_running (env : Env) (fuel : Nat) (h : env.Create = true)
    (hl : (messageLoop env 0 fuel).2 = false) :
    wWinMain env fuel =
      { trace := consoleSetup env ++ projectSetup env ++
          [Call.Create "thoughtecho" ⟨10, 10⟩ ⟨1280, 720⟩] ++ showWindow env ++
          (messageLoop env 0 fuel).1,
        exit := none } := by
  simp [wWinMain, h, hl]

theorem consoleSetup_cases (env : Env) :
    consoleSetup env = [Call.AttachConsole ATTACH_PARENT_PROCESS, Call.IsDebuggerPresent,
        Call.CreateAndAttachConsole] ∨
    consoleSetup env = [Call.AttachConsole ATTACH_PARENT_PROCESS, Call.IsDebuggerPresent] ∨
    consoleSetup env = [Call.AttachConsole ATTACH_PARENT_PROCESS] := by
  unfold consoleSetup
  split_ifs <;> simp

theorem showWindow_cases (env : Env) :
    showWindow env = [Call.SetQuitOnClose true, Call.GetHandle,
        Call.SetForegroundWindow env.GetHandle, Call.BringWindowToTop env.GetHandle] ∨
    showWindow env = [Call.SetQuitOnClose true, Call.GetHandle] := by
  by_cases h : env.GetHandle = 0 <;> simp [showWindow, h]

theorem messageLoop_filter_nil (env : Env) (fuel : Nat) (p : Call → Bool)
    (hp : ∀ c, c.isLoopCall = true → p c = false) :
    (messageLoop env 0 fuel).1.filter p = [] := by
  rw [List.filter_eq_nil_iff]
  intro c hc
  simp [hp c (messageLoop_isLoopCall env fuel 0 c hc)]

theorem pumped_filter_isLoopCall (env : Env) (n : Nat) :
    (pumped env n).filter Call.isLoopCall = pumped env n := by
  induction n with
  | zero => simp [pumped]
  | succ n ih => simp [pumped, ih, List.filter, Call.isLoopCall]

theorem pumped_countP_isGetMessage (env : Env) (n : Nat) :
    (pumped env n).countP Call.isGetMessage = n := by
  induction n with
  | zero => simp [pumped]
  | succ n ih => simp [pumped, ih, List.countP_cons, Call.isGetMessage]

theorem wWinMain_exit_eq (env : Env) (fuel : Nat) :
    (wWinMain env fuel).exit =
      if env.Create = true then
        (if (messageLoop env 0 fuel).2 = true then some EXIT_SUCCESS else none)
      else some EXIT_FAILURE := by
  cases hC : env.Create
  · simp [wWinMain_create_false env fuel hC]
  · cases hd : (messageLoop env 0 fuel).2
    · simp [wWinMain_running env fuel hC hd]
    · simp [wWinMain_done env fuel hC hd]

theorem wWinMain_trace_cases (env : Env) (fuel : Nat) :
    (env.Create = false ∧ (wWinMain env fuel).exit = some EXIT_FAILURE ∧
      (wWinMain env fuel).trace = consoleSetup env ++ projectSetup env ++
        [Call.Create "thoughtecho" ⟨10, 10⟩ ⟨1280, 720⟩] ++ ([errorBox] ++ scopeExit)) ∨
    (env.Create = true ∧ (wWinMain env fuel).exit = some EXIT_SUCCESS ∧
      (messageLoop env 0 fuel).2 = true ∧
      (wWinMain env fuel).trace = consoleSetup env ++ projectSetup env ++
        [Call.Create "thoughtecho" ⟨10, 10⟩ ⟨1280, 720⟩] ++
        (showWindow env ++ ((messageLoop env 0 fuel).1 ++
          ([Call.CoUninitialize] ++ scopeExit)))) ∨
    (env.Create = true ∧ (wWinMain env fuel).exit = none ∧
      (messageLoop env 0 fuel).2 = false ∧
      (wWinMain env fuel).trace = consoleSetup env ++ projectSetup env ++
        [Call.Create "thoughtecho" ⟨10, 10⟩ ⟨1280, 720⟩] ++
        (showWindow env ++ ((messageLoop env 0 fuel).1 ++ []))) := by
  cases hC : env.Create
  · exact Or.inl ⟨rfl, by simp [wWinMain_create_false env fuel hC]⟩
  · cases hd : (messageLoop env 0 fuel).2
    · exact Or.inr (Or.inr ⟨rfl, by simp [wWinMain_running env fuel hC hd]⟩)
    · exact Or.inr (Or.inl ⟨rfl, by simp [wWinMain_done env fuel hC hd]⟩)

theorem messageLoop_head (env : Env) (fuel : Nat) (hf : 0 < fuel) (tail : List Call) :
    ((messageLoop env 0 fuel).1 ++ tail).head? = some (Call.GetMessage nullptr 0 0) := by
  obtain ⟨f, rfl⟩ : ∃ f, fuel = f + 1 := ⟨fuel - 1, by omega⟩
  by_cases hz : (env.GetMessage 0).1 = 0
  · rw [messageLoop_succ_eq env 0 f hz]; rfl
  · rw [messageLoop_succ_ne env 0 f hz]; rfl

theorem wWinMain_trace_split (env : Env) (fuel : Nat) :
    ∃ post, (wWinMain env fuel).trace = consoleSetup env ++ projectSetup env ++
        [Call.Create "thoughtecho" ⟨10, 10⟩ ⟨1280, 720⟩] ++ post ∧
      ∀ c, c ∈ post → c.isAfterCreate = true := by
  have hm : ∀ c, c ∈ (messageLoop env 0 fuel).1 → c.isAfterCreate = true := by
    intro c hc
    have := messageLoop_isLoopCall env fuel 0 c hc
    cases c <;> simp_all [Call.isLoopCall, Call.isAfterCreate]
  have hs : ∀ c, c ∈ showWindow env → c.isAfterCreate = true := by
    rcases showWindow_cases env with h2 | h2 <;> simp [h2, Call.isAfterCreate]
  rcases wWinMain_trace_cases env fuel with ⟨_, _, ht⟩ | ⟨_, _, _, ht⟩ | ⟨_, _, _, ht⟩
  · exact ⟨_, ht, by simp [errorBox, scopeExit, Call.isAfterCreate]⟩
  · refine ⟨_, ht, ?_⟩
    intro c hc
    rw [List.mem_append, List.mem_append] at hc
    rcases hc with hc | hc | hc
    · exact hs c hc
    · exact hm c hc
    · simp [scopeExit] at hc
      rcases hc with rfl | rfl | rfl | rfl <;> rfl
  · refine ⟨_, ht, ?_⟩
    intro c hc
    rw [List.mem_append, List.mem_append] at hc
    rcases hc with hc | hc | hc
    · exact hs c hc
    · exact hm c hc
    · simp at hc

theorem showWindow_eq (env : Env) :
    showWindow env = [Call.SetQuitOnClose true, Call.GetHandle] ++
      (if env.GetHandle ≠ 0 then
        [Call.SetForegroundWindow env.GetHandle, Call.BringWindowToTop env.GetHandle]
      else []) := by
  by_cases h : env.GetHandle = 0 <;> simp [showWindow, h]

theorem messageLoop_forall (env : Env) (fuel : Nat) (P : Call → Prop)
    (hP : ∀ c, c.isLoopCall = true → P c) :
    ∀ c, c ∈ (messageLoop env 0 fuel).1 → P c :=
  fun c hc => hP c (messageLoop_isLoopCall env fuel 0 c hc)

theorem messageLoop_succ_head (env : Env) (k f : Nat) :
    ∃ rest, (messageLoop env k (f + 1)).1 = Call.GetMessage nullptr 0 0 :: rest := by
  by_cases hz : (env.GetMessage k).1 = 0
  · exact ⟨_, by rw [messageLoop_succ_eq env k f hz]⟩
  · exact ⟨_, by rw [messageLoop_succ_ne env k f hz]⟩

theorem setup_not_mem_CoUninitialize (env : Env) :
    Call.CoUninitialize ∉ consoleSetup env ++ projectSetup env ++
      [Call.Create "thoughtecho" ⟨10, 10⟩ ⟨1280, 720⟩] ++ showWindow env := by
  rcases consoleSetup_cases env with h | h | h <;>
    rcases showWindow_cases env with h2 | h2 <;> simp [h, h2, projectSetup]

theorem messageLoop_not_mem_CoUninitialize (env : Env) (fuel : Nat) :
    Call.CoUninitialize ∉ (messageLoop env 0 fuel).1 :=
  fun hc => by simpa [Call.isLoopCall] using messageLoop_isLoopCall env fuel 0 _ hc

/-- Claim C1.  The error message box (`MessageBoxW` with no owner window and
flags `MB_OK | MB_ICONERROR`) is the only `MessageBoxW` call; it is made exactly
once when `window.Create` returns false and never when it returns true.  When
`window.Create` returns false, `wWinMain` returns `EXIT_FAILURE` whatever the
fuel, and makes none of the calls `SetQuitOnClose`, `GetHandle`,
`SetForegroundWindow`, `BringWindowToTop`, `GetMessage`, `TranslateMessage`,
`DispatchMessage`. -/
theorem wWinMain_error_box (env : Env) (fuel : Nat) :
    ((wWinMain env fuel).trace.filter Call.isMessageBoxW =
        if env.Create = true then [] else [errorBox]) ∧
    (∃ text caption, errorBox = Call.MessageBoxW 0 text caption (MB_OK ||| MB_ICONERROR)) ∧
    (env.Create = false →
      (wWinMain env fuel).exit = some EXIT_FAILURE ∧
      ∀ c, c ∈ (wWinMain env fuel).trace → c.isWindowUse = false) := by
  refine ⟨?_, ⟨_, _, rfl⟩, ?_⟩
  · cases hC : env.Create
    · rw [wWinMain_create_false env fuel hC]
      rcases consoleSetup_cases env with h | h | h <;>
        simp [h, projectSetup, scopeExit, errorBox, List.filter, Call.isMessageBoxW]
    · have hl := messageLoop_filter_nil env fuel Call.isMessageBoxW
        (by intro c hc; cases c <;> simp_all [Call.isLoopCall, Call.isMessageBoxW])
      cases hd : (messageLoop env 0 fuel).2
      · rw [wWinMain_running env fuel hC hd]
        rcases consoleSetup_cases env with h | h | h <;>
          rcases showWindow_cases env with h2 | h2 <;>
          simp [h, h2, hl, projectSetup, List.filter, Call.isMessageBoxW]
      · rw [wWinMain_done env fuel hC hd]
        rcases consoleSetup_cases env with h | h | h <;>
          rcases showWindow_cases env with h2 | h2 <;>
          simp [h, h2, hl, projectSetup, scopeExit, List.filter, Call.isMessageBoxW]
  · intro hC
    rw [wWinMain_create_false env fuel hC]
    refine ⟨rfl, ?_⟩
    rcases consoleSetup_cases env with h | h | h <;>
      simp [h, projectSetup, scopeExit, errorBox, Call.isWindowUse]

/-- Witness for claim C1 in an environment where `window.Create` fails. -/
theorem wWinMain_error_box_witness :
    envFail.Create = false ∧
    (wWinMain envFail 5).exit = some EXIT_FAILURE ∧
    ∀ c, c ∈ (wWinMain envFail 5).trace → c.isWindowUse = false :=
  ⟨rfl, (wWinMain_error_box envFail 5).2.2 rfl⟩

/-- Claim C2.  In every environment in which `wWinMain` returns
(`window.Create` fails, or it succeeds and some `GetMessage` call returns 0),
enough fuel gives an exit code, which is `EXIT_SUCCESS` when `window.Create`
returned true and `EXIT_FAILURE` otherwise, and the two codes differ.  The exit
code is the same in any second environment that agrees on the result of
`window.Create` and on which `GetMessage` calls return 0: it does not depend
on the results of `AttachConsole`, `IsDebuggerPresent`, `CoInitializeEx`,
`GetCommandLineArguments`, `GetHandle`, or on the messages. -/
theorem wWinMain_exit_code (env env2 : Env)
    (hC : env2.Create = env.Create)
    (hG : ∀ k, (env2.GetMessage k).1 = 0 ↔ (env.GetMessage k).1 = 0)
    (hret : env.Create = false ∨ (env.Create = true ∧ ∃ k, (env.GetMessage k).1 = 0)) :
    EXIT_SUCCESS ≠ EXIT_FAILURE ∧
    (∃ fuel0, ∀ fuel, fuel0 ≤ fuel →
      (wWinMain env fuel).exit =
        some (if env.Create = true then EXIT_SUCCESS else EXIT_FAILURE)) ∧
    (∀ fuel code, (wWinMain env fuel).exit = some code →
      code = if env.Create = true then EXIT_SUCCESS else EXIT_FAILURE) ∧
    (∀ fuel, (wWinMain env2 fuel).exit = (wWinMain env fuel).exit) := by
  refine ⟨by decide, ?_, ?_, ?_⟩
  · rcases hret with hF | ⟨hT, hk⟩
    · exact ⟨0, fun fuel _ => by simp [wWinMain_exit_eq, hF]⟩
    · obtain ⟨n, hnz, hz⟩ := first_zero env hk
      refine ⟨n + 1, fun fuel hf => ?_⟩
      simp [wWinMain_exit_eq, hT, messageLoop_first_zero env n fuel hnz hz hf]
  · intro fuel code h
    rw [wWinMain_exit_eq] at h
    split_ifs at h with h1 h2 <;> simp_all
  · intro fuel
    rw [wWinMain_exit_eq, wWinMain_exit_eq, hC, messageLoop_congr env env2 hG fuel 0]

/-- Witness for claim C2: two environments that differ in everything but the
result of `window.Create` and the place of the first 0 from `GetMessage`. -/
theorem wWinMain_exit_code_witness :
    envOther.Create = envQuit.Create ∧
    (∀ k, (envOther.GetMessage k).1 = 0 ↔ (envQuit.GetMessage k).1 = 0) ∧
    (envQuit.Create = false ∨ (envQuit.Create = true ∧ ∃ k, (envQuit.GetMessage k).1 = 0)) ∧
    (∃ fuel0, ∀ fuel, fuel0 ≤ fuel →
      (wWinMain envQuit fuel).exit =
        some (if envQuit.Create = true then EXIT_SUCCESS else EXIT_FAILURE)) ∧
    (∀ fuel, (wWinMain envOther fuel).exit = (wWinMain envQuit fuel).exit) :=
  have hG : ∀ k, (envOther.GetMessage k).1 = 0 ↔ (envQuit.GetMessage k).1 = 0 := by
    intro k
    simp only [envOther, envQuit]
    split_ifs <;> simp <;> omega
  have hret : envQuit.Create = false ∨
      (envQuit.Create = true ∧ ∃ k, (envQuit.GetMessage k).1 = 0) :=
    Or.inr ⟨rfl, 2, rfl⟩
  ⟨rfl, hG, hret, (wWinMain_exit_code envQuit envOther rfl hG hret).2.1,
    (wWinMain_exit_code envQuit envOther rfl hG hret).2.2.2⟩

/-- Claim C3.  When `window.Create` succeeds and `GetMessage` returns a
non-zero value on its first `n` calls and 0 on call `n + 1`, then with enough
fuel `wWinMain` returns and has made exactly `n + 1` `GetMessage` calls; its
message-loop calls are, for each of the `n` retrieved messages in order,
`GetMessage`, `TranslateMessage` on that message, `DispatchMessage` on that
message, followed by the last `GetMessage` and nothing else. -/
theorem wWinMain_message_loop (env : Env) (n fuel : Nat)
    (hC : env.Create = true)
    (hnz : ∀ k, k < n → (env.GetMessage k).1 ≠ 0)
    (hz : (env.GetMessage n).1 = 0)
    (hf : n < fuel) :
    (wWinMain env fuel).exit = some EXIT_SUCCESS ∧
    (wWinMain env fuel).trace.countP Call.isGetMessage = n + 1 ∧
    (wWinMain env fuel).trace.filter Call.isLoopCall =
      pumped env n ++ [Call.GetMessage nullptr 0 0] := by
  have hl := messageLoop_first_zero env n fuel hnz hz hf
  have hd : (messageLoop env 0 fuel).2 = true := by rw [hl]
  rw [wWinMain_done env fuel hC hd, hl]
  refine ⟨rfl, ?_, ?_⟩
  · rcases consoleSetup_cases env with h | h | h <;>
      rcases showWindow_cases env with h2 | h2 <;>
      simp [h, h2, projectSetup, scopeExit, List.countP_cons, Call.isGetMessage,
        pumped_countP_isGetMessage]
  · rcases consoleSetup_cases env with h | h | h <;>
      rcases showWindow_cases env with h2 | h2 <;>
      simp [h, h2, projectSetup, scopeExit, List.filter, Call.isLoopCall,
        pumped_filter_isLoopCall]

/-- Witness for claim C3: two messages are pumped, the third call returns 0. -/
theorem wWinMain_message_loop_witness :
    envQuit.Create = true ∧
    (∀ k, k < 2 → (envQuit.GetMessage k).1 ≠ 0) ∧
    (envQuit.GetMessage 2).1 = 0 ∧
    (wWinMain envQuit 3).exit = some EXIT_SUCCESS ∧
    (wWinMain envQuit 3).trace.countP Call.isGetMessage = 2 + 1 ∧
    (wWinMain envQuit 3).trace.filter Call.isLoopCall =
      [Call.GetMessage nullptr 0 0, Call.TranslateMessage (sampleMsg 0),
        Call.DispatchMessage (sampleMsg 0),
        Call.GetMessage nullptr 0 0, Call.TranslateMessage (sampleMsg 1),
        Call.DispatchMessage (sampleMsg 1),
        Call.GetMessage nullptr 0 0] :=
  have hnz : ∀ k, k < 2 → (envQuit.GetMessage k).1 ≠ 0 := by decide
  ⟨rfl, hnz, rfl, wWinMain_message_loop envQuit 2 3 rfl hnz rfl (by decide)⟩

/-- Claim C4.  The list passed to `set_dart_entrypoint_arguments` is exactly
the list returned by `GetCommandLineArguments`; the arguments are set exactly
once, right after `GetCommandLineArguments` is called, and before the
`FlutterWindow` is constructed and `window.Create` is called, each of which
happens exactly once and after the arguments are set. -/
theorem wWinMain_argument_forwarding (env : Env) (fuel : Nat) :
    (wWinMain env fuel).trace.filter Call.isSetArguments =
      [Call.set_dart_entrypoint_arguments env.GetCommandLineArguments] ∧
    ∃ pre post, (wWinMain env fuel).trace =
        pre ++ [Call.GetCommandLineArguments,
          Call.set_dart_entrypoint_arguments env.GetCommandLineArguments,
          Call.FlutterWindow_ctor,
          Call.Create "thoughtecho" ⟨10, 10⟩ ⟨1280, 720⟩] ++ post ∧
      (∀ c, c ∈ pre → c ≠ Call.FlutterWindow_ctor ∧ c.isCreate = false) ∧
      (∀ c, c ∈ post → c ≠ Call.FlutterWindow_ctor ∧ c.isCreate = false) := by
  have hl := messageLoop_filter_nil env fuel Call.isSetArguments
    (by intro c hc; cases c <;> simp_all [Call.isLoopCall, Call.isSetArguments])
  have hm : ∀ c, c ∈ (messageLoop env 0 fuel).1 →
      c ≠ Call.FlutterWindow_ctor ∧ c.isCreate = false := by
    intro c hc
    have := messageLoop_isLoopCall env fuel 0 c hc
    cases c <;> simp_all [Call.isLoopCall, Call.isCreate]
  constructor
  · rcases wWinMain_trace_cases env fuel with ⟨_, _, ht⟩ | ⟨_, _, _, ht⟩ | ⟨_, _, _, ht⟩ <;>
      rw [ht] <;>
      rcases consoleSetup_cases env with h | h | h <;>
      rcases showWindow_cases env with h2 | h2 <;>
      simp [h, h2, hl, projectSetup, scopeExit, errorBox, List.filter, Call.isSetArguments]
  · refine ⟨consoleSetup env ++ [Call.CoInitializeEx nullptr COINIT_APARTMENTTHREADED,
      Call.DartProject_ctor "data"], ?_⟩
    have hpre : ∀ c, c ∈ consoleSetup env ++
        [Call.CoInitializeEx nullptr COINIT_APARTMENTTHREADED, Call.DartProject_ctor "data"] →
        c ≠ Call.FlutterWindow_ctor ∧ c.isCreate = false := by
      rcases consoleSetup_cases env with h | h | h <;> simp [h, Call.isCreate]
    rcases wWinMain_trace_cases env fuel with ⟨_, _, ht⟩ | ⟨_, _, _, ht⟩ | ⟨_, _, _, ht⟩
    · refine ⟨[errorBox] ++ scopeExit, ?_, hpre, ?_⟩
      · rw [ht]; simp [projectSetup]
      · simp [errorBox, scopeExit, Call.isCreate]
    · refine ⟨showWindow env ++ ((messageLoop env 0 fuel).1 ++
        ([Call.CoUninitialize] ++ scopeExit)), ?_, hpre, ?_⟩
      · rw [ht]; simp [projectSetup]
      · intro c hc
        rw [List.mem_append, List.mem_append] at hc
        rcases hc with hc | hc | hc
        · rcases showWindow_cases env with h2 | h2 <;> rw [h2] at hc <;>
            simp at hc <;> rcases hc with rfl | rfl | rfl | rfl <;> simp [Call.isCreate]
        · exact hm c hc
        · simp [scopeExit] at hc
          rcases hc with rfl | rfl | rfl | rfl <;> simp [Call.isCreate]
    · refine ⟨showWindow env ++ ((messageLoop env 0 fuel).1 ++ []), ?_, hpre, ?_⟩
      · rw [ht]; simp [projectSetup]
      · intro c hc
        rw [List.mem_append, List.mem_append] at hc
        rcases hc with hc | hc | hc
        · rcases showWindow_cases env with h2 | h2 <;> rw [h2] at hc <;>
            simp at hc <;> rcases hc with rfl | rfl | rfl | rfl <;> simp [Call.isCreate]
        · exact hm c hc
        · simp at hc

/-- Claim C5.  The run starts with the console set-up and nothing of it is
repeated later: `AttachConsole(ATTACH_PARENT_PROCESS)` is called first; when it
returns 0 (false) `IsDebuggerPresent` is queried, and when that returns
non-zero (true) `CreateAndAttachConsole` is called next; `CoInitializeEx`
follows directly.  So `CreateAndAttachConsole` is called once when
`AttachConsole` fails and a debugger is present, and not at all otherwise, and
`IsDebuggerPresent` is queried once when `AttachConsole` fails and not at all
when it succeeds. -/
theorem wWinMain_console_setup (env : Env) (fuel : Nat) :
    (∃ rest, (wWinMain env fuel).trace =
        (if env.AttachConsole = 0 then
          (if env.IsDebuggerPresent ≠ 0 then
            [Call.AttachConsole ATTACH_PARENT_PROCESS, Call.IsDebuggerPresent,
              Call.CreateAndAttachConsole]
          else [Call.AttachConsole ATTACH_PARENT_PROCESS, Call.IsDebuggerPresent])
        else [Call.AttachConsole ATTACH_PARENT_PROCESS]) ++
        Call.CoInitializeEx nullptr COINIT_APARTMENTTHREADED :: rest ∧
      ∀ c, c ∈ rest → c.isConsoleCall = false) ∧
    ((wWinMain env fuel).trace.count Call.CreateAndAttachConsole =
      if env.AttachConsole = 0 ∧ env.IsDebuggerPresent ≠ 0 then 1 else 0) ∧
    ((wWinMain env fuel).trace.count Call.IsDebuggerPresent =
      if env.AttachConsole = 0 then 1 else 0) := by
  obtain ⟨post, ht, hpost⟩ := wWinMain_trace_split env fuel
  have hrest : ∀ c, c ∈ post → c.isConsoleCall = false := by
    intro c hc
    have := hpost c hc
    cases c <;> simp_all [Call.isAfterCreate, Call.isConsoleCall]
  have hc1 : post.count Call.CreateAndAttachConsole = 0 := by
    rw [List.count_eq_zero]
    intro hc
    simpa [Call.isConsoleCall] using hrest _ hc
  have hc2 : post.count Call.IsDebuggerPresent = 0 := by
    rw [List.count_eq_zero]
    intro hc
    simpa [Call.isConsoleCall] using hrest _ hc
  refine ⟨⟨[Call.DartProject_ctor "data", Call.GetCommandLineArguments,
      Call.set_dart_entrypoint_arguments env.GetCommandLineArguments,
      Call.FlutterWindow_ctor, Call.Create "thoughtecho" ⟨10, 10⟩ ⟨1280, 720⟩] ++ post,
    ?_, ?_⟩, ?_, ?_⟩
  · rw [ht]
    simp [consoleSetup, projectSetup]
  · intro c hc
    rw [List.mem_append] at hc
    rcases hc with hc | hc
    · simp at hc
      rcases hc with rfl | rfl | rfl | rfl | rfl <;> rfl
    · exact hrest c hc
  · rw [ht]
    by_cases hA : env.AttachConsole = 0 <;> by_cases hD : env.IsDebuggerPresent = 0 <;>
      simp [consoleSetup, projectSetup, hA, hD, hc1, List.count_cons]
  · rw [ht]
    by_cases hA : env.AttachConsole = 0 <;> by_cases hD : env.IsDebuggerPresent = 0 <;>
      simp [consoleSetup, projectSetup, hA, hD, hc2, List.count_cons]

/-- Claim C6.  On every path, `CoInitializeEx(nullptr,
COINIT_APARTMENTTHREADED)` is called exactly once, and no construction of the
`DartProject` or of the `FlutterWindow`, no `window.Create` and no message-loop
call comes before it; the two constructions and `window.Create` come after
it. -/
theorem wWinMain_com_initialised_first (env : Env) (fuel : Nat) :
    (wWinMain env fuel).trace.filter Call.isCoInitializeEx =
      [Call.CoInitializeEx nullptr COINIT_APARTMENTTHREADED] ∧
    ∃ pre post, (wWinMain env fuel).trace =
        pre ++ Call.CoInitializeEx nullptr COINIT_APARTMENTTHREADED :: post ∧
      (∀ c, c ∈ pre → c.isComClient = false) ∧
      Call.DartProject_ctor "data" ∈ post ∧ Call.FlutterWindow_ctor ∈ post ∧
      Call.Create "thoughtecho" ⟨10, 10⟩ ⟨1280, 720⟩ ∈ post := by
  obtain ⟨post, ht, hpost⟩ := wWinMain_trace_split env fuel
  have hf : post.filter Call.isCoInitializeEx = [] := by
    rw [List.filter_eq_nil_iff]
    intro c hc
    have := hpost c hc
    cases c <;> simp_all [Call.isAfterCreate, Call.isCoInitializeEx]
  constructor
  · rw [ht]
    rcases consoleSetup_cases env with h | h | h <;>
      simp [h, hf, projectSetup, List.filter, Call.isCoInitializeEx]
  · refine ⟨consoleSetup env, [Call.DartProject_ctor "data", Call.GetCommandLineArguments,
      Call.set_dart_entrypoint_arguments env.GetCommandLineArguments,
      Call.FlutterWindow_ctor, Call.Create "thoughtecho" ⟨10, 10⟩ ⟨1280, 720⟩] ++ post,
      ?_, ?_, ?_, ?_, ?_⟩
    · rw [ht]
      simp [projectSetup]
    · rcases consoleSetup_cases env with h | h | h <;> simp [h, Call.isComClient]
    · simp
    · simp
    · simp

/-- Claim C7.  When `window.Create` succeeds, `SetQuitOnClose(true)` is called
exactly once, followed by `GetHandle`; when the handle is non-null,
`SetForegroundWindow` and then `BringWindowToTop` are called on that handle,
each exactly once, and when it is null neither is called.  All of these come
before the first `GetMessage` call, and in both cases the message loop is
entered: with any fuel left, the next call is `GetMessage`. -/
theorem wWinMain_window_shown (env : Env) (fuel : Nat) (hC : env.Create = true) :
    ∃ pre loop, (wWinMain env fuel).trace =
        pre ++ [Call.SetQuitOnClose true, Call.GetHandle] ++
          (if env.GetHandle ≠ 0 then
            [Call.SetForegroundWindow env.GetHandle, Call.BringWindowToTop env.GetHandle]
          else []) ++ loop ∧
      (∀ c, c ∈ pre → c.isShowCall = false ∧ c.isGetMessage = false) ∧
      (∀ c, c ∈ loop → c.isShowCall = false) ∧
      (0 < fuel → loop.head? = some (Call.GetMessage nullptr 0 0)) := by
  have hpre : ∀ c, c ∈ consoleSetup env ++ projectSetup env ++
      [Call.Create "thoughtecho" ⟨10, 10⟩ ⟨1280, 720⟩] →
      c.isShowCall = false ∧ c.isGetMessage = false := by
    rcases consoleSetup_cases env with h | h | h <;>
      simp [h, projectSetup, Call.isShowCall, Call.isGetMessage]
  have hm := messageLoop_forall env fuel (fun c => c.isShowCall = false)
    (by intro c hc; cases c <;> simp_all [Call.isLoopCall, Call.isShowCall])
  rcases wWinMain_trace_cases env fuel with ⟨hF, _⟩ | ⟨_, _, _, ht⟩ | ⟨_, _, _, ht⟩
  · rw [hC] at hF
    exact absurd hF (by decide)
  · refine ⟨_, (messageLoop env 0 fuel).1 ++ ([Call.CoUninitialize] ++ scopeExit),
      ?_, hpre, ?_, fun hf => messageLoop_head env fuel hf _⟩
    · rw [ht, showWindow_eq]
      simp
    · intro c hc
      rw [List.mem_append] at hc
      rcases hc with hc | hc
      · exact hm c hc
      · simp [scopeExit] at hc
        rcases hc with rfl | rfl | rfl | rfl <;> rfl
  · refine ⟨_, (messageLoop env 0 fuel).1 ++ [],
      ?_, hpre, ?_, fun hf => messageLoop_head env fuel hf _⟩
    · rw [ht, showWindow_eq]
      simp
    · intro c hc
      rw [List.append_nil] at hc
      exact hm c hc

/-- Witness for claim C7: the window is created and its handle is 7. -/
theorem wWinMain_window_shown_witness :
    envQuit.Create = true ∧
    ∃ pre loop, (wWinMain envQuit 1).trace =
        pre ++ [Call.SetQuitOnClose true, Call.GetHandle] ++
          (if envQuit.GetHandle ≠ 0 then
            [Call.SetForegroundWindow envQuit.GetHandle,
              Call.BringWindowToTop envQuit.GetHandle]
          else []) ++ loop ∧
      (∀ c, c ∈ pre → c.isShowCall = false ∧ c.isGetMessage = false) ∧
      (∀ c, c ∈ loop → c.isShowCall = false) ∧
      (0 < 1 → loop.head? = some (Call.GetMessage nullptr 0 0)) :=
  ⟨rfl, wWinMain_window_shown envQuit 1 rfl⟩

/-- Claim C9.  The message loop stops only on a `GetMessage` result equal to 0.
When `window.Create` succeeds and the first `n` results are non-zero (whatever
their value, `-1` included), each of the `n` calls is followed by
`TranslateMessage` and `DispatchMessage` on the message buffer and then by a
further `GetMessage` call.  A run contains `CoUninitialize` or returns
`EXIT_SUCCESS` only if some `GetMessage` call made in it returned 0.  When no
`GetMessage` call ever returns 0, the run with fuel `fuel` has not returned and
has made `fuel` `GetMessage` calls, each followed by `TranslateMessage` and
`DispatchMessage`: the loop is unbounded. -/
theorem wWinMain_loop_stops_only_on_zero (env : Env) :
    (∀ n fuel, env.Create = true → (∀ k, k < n → (env.GetMessage k).1 ≠ 0) → n < fuel →
      ∃ pre post, (wWinMain env fuel).trace =
          pre ++ pumped env n ++ Call.GetMessage nullptr 0 0 :: post ∧
        ∀ c, c ∈ pre → c.isLoopCall = false) ∧
    (∀ fuel, (Call.CoUninitialize ∈ (wWinMain env fuel).trace ∨
        (wWinMain env fuel).exit = some EXIT_SUCCESS) →
      ∃ k, k < fuel ∧ (env.GetMessage k).1 = 0) ∧
    (env.Create = true → (∀ k, (env.GetMessage k).1 ≠ 0) →
      ∀ fuel, (wWinMain env fuel).exit = none ∧
        Call.CoUninitialize ∉ (wWinMain env fuel).trace ∧
        (wWinMain env fuel).trace.countP Call.isGetMessage = fuel ∧
        (wWinMain env fuel).trace.filter Call.isLoopCall = pumped env fuel) := by
  have hsetup : ∀ c, c ∈ consoleSetup env ++ projectSetup env ++
      [Call.Create "thoughtecho" ⟨10, 10⟩ ⟨1280, 720⟩] ++ showWindow env →
      c.isLoopCall = false := by
    rcases consoleSetup_cases env with h | h | h <;>
      rcases showWindow_cases env with h2 | h2 <;>
      simp [h, h2, projectSetup, Call.isLoopCall]
  refine ⟨?_, ?_, ?_⟩
  · intro n fuel hC hnz hf
    obtain ⟨f, rfl⟩ : ∃ f, fuel = n + (f + 1) := ⟨fuel - n - 1, by omega⟩
    have hl := messageLoop_pumped env n hnz (f + 1)
    obtain ⟨rest, hr⟩ := messageLoop_succ_head env n f
    have hl1 : (messageLoop env 0 (n + (f + 1))).1 =
        pumped env n ++ Call.GetMessage nullptr 0 0 :: rest := by rw [hl, hr]
    rcases wWinMain_trace_cases env (n + (f + 1)) with
      ⟨hF, _⟩ | ⟨_, _, _, ht⟩ | ⟨_, _, _, ht⟩
    · rw [hC] at hF
      exact absurd hF (by decide)
    · exact ⟨_, rest ++ ([Call.CoUninitialize] ++ scopeExit),
        by rw [ht, hl1]; simp, hsetup⟩
    · exact ⟨_, rest, by rw [ht, hl1]; simp, hsetup⟩
  · intro fuel h
    rcases wWinMain_trace_cases env fuel with ⟨_, he, ht⟩ | ⟨_, _, hd, _⟩ | ⟨_, he, _, ht⟩
    · exfalso
      rcases h with h | h
      · rw [ht] at h
        revert h
        rcases consoleSetup_cases env with h | h | h <;>
          simp [h, projectSetup, errorBox, scopeExit]
      · rw [he] at h
        simp [EXIT_SUCCESS, EXIT_FAILURE] at h
    · obtain ⟨j, hj, hj0⟩ := messageLoop_done env fuel 0 hd
      exact ⟨j, hj, by simpa using hj0⟩
    · exfalso
      rcases h with h | h
      · rw [ht, List.append_nil, ← List.append_assoc] at h
        rcases List.mem_append.1 h with h | h
        · exact setup_not_mem_CoUninitialize env h
        · exact messageLoop_not_mem_CoUninitialize env fuel h
      · rw [he] at h
        simp at h
  · intro hC hnz fuel
    have hl := messageLoop_running env fuel (fun k _ => hnz k)
    have hd : (messageLoop env 0 fuel).2 = false := by rw [hl]
    have ht := wWinMain_running env fuel hC hd
    rw [hl] at ht
    rw [ht]
    refine ⟨rfl, ?_, ?_, ?_⟩
    · intro h
      rcases List.mem_append.1 h with h | h
      · exact setup_not_mem_CoUninitialize env h
      · have := messageLoop_not_mem_CoUninitialize env fuel
        rw [hl] at this
        exact this h
    · rcases consoleSetup_cases env with h | h | h <;>
        rcases showWindow_cases env with h2 | h2 <;>
        simp [h, h2, projectSetup, List.countP_cons, Call.isGetMessage,
          pumped_countP_isGetMessage]
    · rcases consoleSetup_cases env with h | h | h <;>
        rcases showWindow_cases env with h2 | h2 <;>
        simp [h, h2, projectSetup, List.filter, Call.isLoopCall,
          pumped_filter_isLoopCall]

/-- Witness for claim C9: in `envQuit` the second result is `-1` and a third
`GetMessage` call follows; in `envStuck` every result is `-1` and a run with
fuel 4 is still in the loop after 4 `GetMessage` calls. -/
theorem wWinMain_loop_stops_only_on_zero_witness :
    (envQuit.Create = true ∧ (envQuit.GetMessage 1).1 = -1 ∧
      (∀ k, k < 2 → (envQuit.GetMessage k).1 ≠ 0) ∧
      ∃ pre post, (wWinMain envQuit 3).trace =
          pre ++ pumped envQuit 2 ++ Call.GetMessage nullptr 0 0 :: post ∧
        ∀ c, c ∈ pre → c.isLoopCall = false) ∧
    (envStuck.Create = true ∧ (∀ k, (envStuck.GetMessage k).1 ≠ 0) ∧
      (wWinMain envStuck 4).exit = none ∧
      Call.CoUninitialize ∉ (wWinMain envStuck 4).trace ∧
      (wWinMain envStuck 4).trace.countP Call.isGetMessage = 4 ∧
      (wWinMain envStuck 4).trace.filter Call.isLoopCall = pumped envStuck 4) :=
  have hnz : ∀ k, k < 2 → (envQuit.GetMessage k).1 ≠ 0 := by decide
  have hall : ∀ k, (envStuck.GetMessage k).1 ≠ 0 := fun k => by simp [envStuck]
  ⟨⟨rfl, rfl, hnz,
      (wWinMain_loop_stops_only_on_zero envQuit).1 2 3 rfl hnz (by decide)⟩,
    ⟨rfl, hall, (wWinMain_loop_stops_only_on_zero envStuck).2.2 rfl hall 4⟩⟩

end ThoughtEcho
